import Mathlib

/-!
Verification development for the `shutter-control` repository
(EnOcean-to-MQTT bridge for Eltako FSB61NP-230V roller-shutter actuators).

The Python source is shallowly embedded here:
* `position_tracker.py` — `MotionState`, `ShutterState`, `ShutterTrackerConfig`,
  `PositionTracker` with `start_moving`, `stop`, `check_targets`, `_interpolate`.
  Python floats are modelled as rationals (`ℚ`); `time.monotonic()` is passed
  explicitly as a `now : ℚ` argument; the side effects `save_positions` and
  `_notify` are modelled as an explicit `Effect` output list.
* `enocean_gateway.py` — `Direction`, `StatusEvent`, the RPS/4BS status
  decoders and the `send_command` payload encoding.
* `__main__.py` — `_PendingCommand`, `_apply_status_to_shutter`,
  `_handle_enocean_status`, and the retry scan of `_position_check_loop`.

Python dictionaries are modelled as association lists (`List (String × α)`)
with `lookup` / `update` mirroring `dict.get` / item assignment.
-/

namespace ShutterControl

/-- Direction from `enocean_gateway.Direction` (IntEnum STOP=0, UP=1, DOWN=2). -/
inductive Direction where
  | stop
  | up
  | down
  deriving DecidableEq, Repr

/-- MotionState from `position_tracker.MotionState`. -/
inductive MotionState where
  | STOPPED
  | OPENING
  | CLOSING
  deriving DecidableEq, Repr

/-- StatusEvent from `enocean_gateway.StatusEvent`.  Its `__init__` sets exactly
the attributes `sender_id`, `direction` and `stopped`; in particular the class
has NO `is_standard_rocker` attribute. -/
structure StatusEvent where
  sender_id : String
  direction : Option Direction
  stopped : Bool
  deriving DecidableEq, Repr

/-- ShutterState from `position_tracker.ShutterState` (defaults as in source). -/
structure ShutterState where
  position : ℚ := 0
  motion : MotionState := .STOPPED
  move_start_time : ℚ := 0
  move_start_position : ℚ := 0
  target_position : Option ℚ := none
  full_travel_time : ℚ := 25
  deriving DecidableEq, Repr

/-- ShutterTrackerConfig from `position_tracker.ShutterTrackerConfig`. -/
structure ShutterTrackerConfig where
  shutter_id : String
  full_close_time : ℚ
  full_open_time : ℚ
  deriving DecidableEq, Repr

/-- Observable side effects of tracker operations: `save_positions()` writes the
persistence file, `_notify(id)` invokes the update callback. -/
inductive Effect where
  | saved
  | notified (shutter_id : String)
  deriving DecidableEq, Repr

/-- Association-list model of a Python `dict`: `lookup` is `d.get(k)`. -/
def lookup {α : Type} : List (String × α) → String → Option α
  | [], _ => none
  | (k, v) :: rest, key => if k = key then some v else lookup rest key

/-- Association-list model of `d[k] = v` for a key already present
(replaces the stored value, keeps the position). -/
def update {α : Type} : List (String × α) → String → α → List (String × α)
  | [], _, _ => []
  | (k, v) :: rest, key, val =>
      if k = key then (k, val) :: update rest key val
      else (k, v) :: update rest key val

/-- Association-list model of `d.pop(k, None)` (drops all bindings of `k`). -/
def removeKey {α : Type} : List (String × α) → String → List (String × α)
  | [], _ => []
  | (k, v) :: rest, key =>
      if k = key then removeKey rest key else (k, v) :: removeKey rest key

/-- Mutable state of `position_tracker.PositionTracker`: the `_shutters` and
`_configs` dicts (persistence path and callback are modelled via `Effect`). -/
structure PositionTracker where
  shutters : List (String × ShutterState)
  configs : List (String × ShutterTrackerConfig)
  deriving DecidableEq, Repr

/-- Body of `PositionTracker._interpolate` acting on one `ShutterState`:
`elapsed = now - _move_start_time`, `travel_fraction = elapsed / _full_travel_time`,
`travel_percent = travel_fraction * 100`; OPENING caps at 100, CLOSING floors
at 0, STOPPED returns unchanged.  (Python raises ZeroDivisionError when
`_full_travel_time = 0`; theorems below therefore assume positive travel
times wherever the division is reached.) -/
def interpolateState (now : ℚ) (st : ShutterState) : ShutterState :=
  match st.motion with
  | .STOPPED => st
  | .OPENING =>
      let elapsed := now - st.move_start_time
      let travel_fraction := elapsed / st.full_travel_time
      let travel_percent := travel_fraction * 100
      { st with position := min 100 (st.move_start_position + travel_percent) }
  | .CLOSING =>
      let elapsed := now - st.move_start_time
      let travel_fraction := elapsed / st.full_travel_time
      let travel_percent := travel_fraction * 100
      { st with position := max 0 (st.move_start_position - travel_percent) }

/-- `PositionTracker.start_moving(shutter_id, direction, target_position)`.
Returns the updated tracker and the emitted effects.  On an id missing from
either `_shutters` or `_configs` the source logs a warning and returns. -/
def PositionTracker.start_moving (tr : PositionTracker) (now : ℚ) (shutter_id : String)
    (direction : MotionState) (target_position : Option ℚ) :
    PositionTracker × List Effect :=
  match lookup tr.shutters shutter_id, lookup tr.configs shutter_id with
  | some st, some config =>
      let st1 := if st.motion ≠ .STOPPED then interpolateState now st else st
      let full := if direction = .OPENING then config.full_open_time
                  else config.full_close_time
      let st2 : ShutterState :=
        { st1 with
          motion := direction
          move_start_time := now
          move_start_position := st1.position
          target_position := target_position
          full_travel_time := full }
      ({ tr with shutters := update tr.shutters shutter_id st2 },
       [Effect.notified shutter_id])
  | _, _ => (tr, [])

/-- `PositionTracker.stop(shutter_id)`: interpolate if moving, set STOPPED,
clear the target, snap positions below 1 to 0 and above 99 to 100, then
`save_positions()` and `_notify`. -/
def PositionTracker.stop (tr : PositionTracker) (now : ℚ) (shutter_id : String) :
    PositionTracker × List Effect :=
  match lookup tr.shutters shutter_id with
  | none => (tr, [])
  | some st =>
      let st1 := if st.motion ≠ .STOPPED then interpolateState now st else st
      let st2 : ShutterState := { st1 with motion := .STOPPED, target_position := none }
      let pos := if st2.position < 1 then (0 : ℚ)
                 else if st2.position > 99 then (100 : ℚ)
                 else st2.position
      let st3 := { st2 with position := pos }
      ({ tr with shutters := update tr.shutters shutter_id st3 },
       [Effect.saved, Effect.notified shutter_id])

/-- One iteration of the loop body of `PositionTracker.check_targets` for the
shutter `shutter_id` holding state `st`.  Returns the new state, whether the
id is appended to `stop_ids`, and the emitted effects. -/
def checkTargetsStep (now : ℚ) (shutter_id : String) (st : ShutterState) :
    ShutterState × Bool × List Effect :=
  if st.motion = .STOPPED then (st, false, [])
  else
    let st := interpolateState now st
    if st.position ≤ 0 ∧ st.motion = .CLOSING then
      ({ st with position := 0, motion := .STOPPED, target_position := none },
       false, [Effect.saved, Effect.notified shutter_id])
    else if st.position ≥ 100 ∧ st.motion = .OPENING then
      ({ st with position := 100, motion := .STOPPED, target_position := none },
       false, [Effect.saved, Effect.notified shutter_id])
    else
      match st.target_position with
      | none => (st, false, [])
      | some tgt =>
          let reached :=
            (st.motion = .OPENING ∧ st.position ≥ tgt) ∨
            (st.motion = .CLOSING ∧ st.position ≤ tgt)
          if reached then ({ st with position := tgt }, true, [])
          else (st, false, [])

/-- The loop of `PositionTracker.check_targets` over the `_shutters` items, in
insertion order.  Returns the updated entries, the `stop_ids` list, and the
emitted effects. -/
def checkTargetsList (now : ℚ) :
    List (String × ShutterState) →
      List (String × ShutterState) × List String × List Effect
  | [] => ([], [], [])
  | (shutter_id, st) :: rest =>
      let r := checkTargetsStep now shutter_id st
      let rec_rest := checkTargetsList now rest
      ((shutter_id, r.1) :: rec_rest.1,
       (if r.2.1 then [shutter_id] else []) ++ rec_rest.2.1,
       r.2.2 ++ rec_rest.2.2)

/-- `PositionTracker.check_targets()`: returns the updated tracker, the list of
shutter ids that need a stop command, and the emitted effects. -/
def PositionTracker.check_targets (tr : PositionTracker) (now : ℚ) :
    PositionTracker × List String × List Effect :=
  let r := checkTargetsList now tr.shutters
  ({ tr with shutters := r.1 }, r.2.1, r.2.2)

/-! ## Telegram codec (`enocean_gateway.py`) -/

/-- Python `int(q)`: truncation toward zero.  On a normalized rational this is
`Int.div` (truncating division) of the numerator by the denominator. -/
def pyTrunc (q : ℚ) : ℤ :=
  Int.tdiv q.num q.den

/-- The duration field computed by `EnOceanGateway.send_command`:
`if direction == Direction.STOP: time_sec = 0` then
`time_val = min(int(time_sec * 10), 3000)`.  Note the source has no lower
clamp: a negative `time_sec` yields a negative `time_val`. -/
def send_command_time_val (direction : Direction) (time_sec : ℚ) : ℤ :=
  let t := if direction = .stop then 0 else time_sec
  min (pyTrunc (t * 10)) 3000

/-- Python `(x >> 8) & 0xFF` on `int`: `>> 8` is an arithmetic shift, i.e.
floor division by 256, and `& 0xFF` on a (possibly negative) int is the
two's-complement low byte, i.e. the Euclidean remainder mod 256.  Lean's `/`
and `%` on `ℤ` are exactly Python's `//` and `%`. -/
def byteHi (x : ℤ) : ℤ := (x / 256) % 256

/-- Python `x & 0xFF` on `int` (Euclidean remainder mod 256). -/
def byteLo (x : ℤ) : ℤ := x % 256

/-- The `packet.data` bytes built by `EnOceanGateway.send_command`:
`[RORG.BS4, time_msb, time_lsb, db1, db0] ++ sender ++ [0x30]` with
`RORG.BS4 = 0xA5`, `db1 = 0x01` for UP / `0x02` for DOWN / `0x00` for STOP,
and `db0 = 0x08` (normal command). -/
def send_command_data (direction : Direction) (time_sec : ℚ) (sender : List ℤ) :
    List ℤ :=
  let time_val := send_command_time_val direction time_sec
  let time_msb := byteHi time_val
  let time_lsb := byteLo time_val
  let db1 : ℤ := if direction = .up then 0x01
                 else if direction = .down then 0x02 else 0x00
  let db0 : ℤ := 0x08
  [0xA5, time_msb, time_lsb, db1, db0] ++ sender ++ [0x30]

/-- The 16-bit big-endian duration value carried by data bytes 1 and 2 of an
encoded command telegram. -/
def encodedDuration (data : List ℤ) : ℤ :=
  256 * data.getD 1 0 + data.getD 2 0

/-- `EnOceanGateway._handle_rps_status`: decode an RPS telegram into the
`StatusEvent` handed to the status callback (`none` when `len(packet.data) < 2`
discards the telegram).  `data` are the packet data bytes, `status` the packet
status byte; the NU bit (bit 4 of status) gates pressed vs released.  The
decoder branches only on the bytes — the sender id is copied into the event
but never consulted. -/
def handle_rps_status (sender_id : String) (data : List ℕ) (status : ℕ) :
    Option StatusEvent :=
  if data.length < 2 then none
  else
    let status_byte := data.getD 1 0
    let nu_bit := (status >>> 4) &&& 0x01
    if nu_bit ≠ 0 then
      let rocker_value := (status_byte >>> 5) &&& 0x07
      let direction : Option Direction :=
        if rocker_value = 1 ∨ rocker_value = 3 then some .down
        else if rocker_value = 0 ∨ rocker_value = 2 then
          if rocker_value = 0 ∧ status_byte &&& 0x0F = 0x02 then some .down
          else some .up
        else none
      some { sender_id := sender_id, direction := direction, stopped := false }
    else
      some { sender_id := sender_id, direction := none, stopped := true }

/-- The rocker-code → direction mapping in the words of the (amended) claim,
for comparison with `handle_rps_status`: codes 1 and 3 → DOWN, code 2 → UP,
codes 4-7 → no direction, code 0 → UP unless the low nibble is `0x02`, in
which case DOWN.  The decoder applies this to every sender uniformly. -/
def claimedRockerDirection (status_byte : ℕ) : Option Direction :=
  let rocker := (status_byte >>> 5) &&& 0x07
  if rocker = 1 ∨ rocker = 3 then some .down
  else if rocker = 2 then some .up
  else if rocker = 0 then
    (if status_byte &&& 0x0F = 0x02 then some .down else some .up)
  else none

/-- `EnOceanGateway._handle_4bs_status`: decode a 4BS telegram.  Telegrams
shorter than 5 data bytes and teach-in telegrams (DB0 bit 3 cleared) are
discarded (`none`); otherwise the actuator's delayed end-of-travel report is
emitted as a plain stop event — the `StatusEvent` produced carries no
end-position / standard-rocker marker of any kind. -/
def handle_4bs_status (sender_id : String) (data : List ℕ) : Option StatusEvent :=
  if data.length < 5 then none
  else
    let db0 := data.getD 4 0
    if db0 &&& 0x08 = 0 then none
    else some { sender_id := sender_id, direction := none, stopped := true }

/-! ## Command orchestrator (`__main__.py`) -/

/-- `_PendingCommand` from `__main__.py`. -/
structure PendingCommand where
  command : String
  sent_at : ℚ
  retried : Bool := false
  deriving DecidableEq, Repr

/-- `COMMAND_ACK_TIMEOUT = 5.0` from `__main__.py`. -/
def COMMAND_ACK_TIMEOUT : ℚ := 5

/-- Runtime errors raised by the Python orchestrator. -/
inductive PyError where
  | attributeError
  deriving DecidableEq, Repr

/-- `_apply_status_to_shutter(safe_id, event, tracker)` from `__main__.py`,
acting on the `_pending_commands` dict and the tracker.

Source control flow: when `event.stopped` the pending command is popped and
`tracker.stop(safe_id)` is called.  Otherwise the very next line evaluates
`event.is_standard_rocker` — but `StatusEvent` (enocean_gateway.py) defines no
attribute of that name, so Python raises `AttributeError` there.  (The lines
below it would also call `tracker.get_target(safe_id)`, which
`PositionTracker` does not define either.)  The embedding therefore returns
`Except.error .attributeError` on every non-stopped event. -/
def apply_status_to_shutter (pending : List (String × PendingCommand))
    (tr : PositionTracker) (now : ℚ) (safe_id : String) (event : StatusEvent) :
    Except PyError (List (String × PendingCommand) × PositionTracker × List Effect) :=
  if event.stopped then
    let r := tr.stop now safe_id
    .ok (removeKey pending safe_id, r.1, r.2)
  else
    .error .attributeError

/-- Python `str.upper()` on one ASCII character. -/
def pyUpperChar (c : Char) : Char :=
  if c.isLower then Char.ofNat (c.toNat - 32) else c

/-- Python `str.upper()` for the ASCII strings used as device ids
(hex digits and colons). -/
def pyUpper (s : String) : String :=
  String.mk (s.data.map pyUpperChar)

/-- `_handle_enocean_status(event, tracker)` from `__main__.py`: look the
upper-cased sender id up in `_id_to_safe`; apply the event when it maps to a
registered shutter, otherwise ignore the telegram. -/
def handle_enocean_status (id_to_safe : List (String × String))
    (pending : List (String × PendingCommand)) (tr : PositionTracker)
    (now : ℚ) (event : StatusEvent) :
    Except PyError (List (String × PendingCommand) × PositionTracker × List Effect) :=
  match lookup id_to_safe (pyUpper event.sender_id) with
  | some safe_id => apply_status_to_shutter pending tr now safe_id event
  | none => .ok (pending, tr, [])

/-- The pending-command retry scan at the top of `_position_check_loop`
(`__main__.py` lines 230-250): for each pending command, skip it when younger
than `COMMAND_ACK_TIMEOUT`; drop it when already retried; otherwise resend the
identical command (via `_handle_command(safe_id, pending.command, ...)`, which
re-encodes the same command string against the unchanged shutter config) and
re-arm the record with `sent_at = now` and `retried = True`.  Returns the dict
after the scan and the `(safe_id, command)` resends in iteration order. -/
def retryScan (now : ℚ) :
    List (String × PendingCommand) →
      List (String × PendingCommand) × List (String × String)
  | [] => ([], [])
  | (safe_id, p) :: rest =>
      let r := retryScan now rest
      if now - p.sent_at < COMMAND_ACK_TIMEOUT then ((safe_id, p) :: r.1, r.2)
      else if p.retried then (r.1, r.2)
      else ((safe_id, { command := p.command, sent_at := now, retried := true }) :: r.1,
            (safe_id, p.command) :: r.2)

/-! ## Helper lemmas -/

theorem pyTrunc_nonneg {q : ℚ} (h : 0 ≤ q) : 0 ≤ pyTrunc q :=
  Int.tdiv_nonneg (Rat.num_nonneg.mpr h) (by positivity)

theorem lookup_update_self {α : Type} (l : List (String × α)) (k : String) (v : α)
    (h : (lookup l k).isSome) : lookup (update l k v) k = some v := by
  induction l with
  | nil => simp [lookup] at h
  | cons hd tl ih =>
      obtain ⟨k1, v1⟩ := hd
      by_cases hk : k1 = k
      · simp [lookup, update, hk]
      · simp only [lookup, update, if_neg hk] at h ⊢
        exact ih h

/-! ## C10 -/

/-- C10: calling `start_moving` or `stop` with a shutter id that was never
registered raises no exception and leaves the tracker's entire state
unchanged — no shutter entry is created, no field is modified, nothing is
persisted, and no update notification is emitted. -/
theorem c10_unregistered_id_is_no_op (tr : PositionTracker) (now : ℚ)
    (shutter_id : String) (h : lookup tr.shutters shutter_id = none)
    (direction : MotionState) (target : Option ℚ) :
    tr.start_moving now shutter_id direction target = (tr, []) ∧
    tr.stop now shutter_id = (tr, []) := by
  constructor
  · unfold PositionTracker.start_moving
    rw [h]
  · unfold PositionTracker.stop
    rw [h]

/-- C10 witness: the theorem applied to an empty tracker and id `s1`. -/
theorem c10_unregistered_id_is_no_op_witness :
    PositionTracker.start_moving ⟨[], []⟩ 0 "s1" .OPENING none = (⟨[], []⟩, []) ∧
    PositionTracker.stop ⟨[], []⟩ 0 "s1" = (⟨[], []⟩, []) :=
  c10_unregistered_id_is_no_op ⟨[], []⟩ 0 "s1" rfl .OPENING none

/-! ## C6 -/

/-- C6: for every shutter and every elapsed time (including elapsed times far
exceeding the configured full travel time), the stored position after any
interpolation lies in `[0, 100]`: OPENING is capped at 100 and CLOSING is
floored at 0.  Hypotheses: the shutter is moving, the recorded move-start
position is itself in range, the clock is monotone (`move_start_time ≤ now`),
and the configured travel time is positive (the source would raise
`ZeroDivisionError` otherwise). -/
theorem c6_interpolated_position_in_range (now : ℚ) (st : ShutterState)
    (hmotion : st.motion ≠ .STOPPED)
    (h0 : 0 ≤ st.move_start_position) (h100 : st.move_start_position ≤ 100)
    (hnow : st.move_start_time ≤ now) (htt : 0 < st.full_travel_time) :
    0 ≤ (interpolateState now st).position ∧
    (interpolateState now st).position ≤ 100 := by
  obtain ⟨pos, motion, mst, msp, tgt, ftt⟩ := st
  simp only at h0 h100 hnow htt hmotion
  have htp : 0 ≤ (now - mst) / ftt * 100 :=
    mul_nonneg (div_nonneg (by linarith) htt.le) (by norm_num)
  cases motion with
  | STOPPED => exact absurd rfl hmotion
  | OPENING =>
      simp only [interpolateState]
      exact ⟨le_min (by norm_num) (by linarith), min_le_left _ _⟩
  | CLOSING =>
      simp only [interpolateState]
      exact ⟨le_max_left _ _, max_le (by norm_num) (by linarith)⟩

/-- C6 witness: a shutter opening from 50% with travel time 10 s, read 7 s
in (interpolated position 50 + 70 = capped at 100). -/
theorem c6_interpolated_position_in_range_witness :
    0 ≤ (interpolateState 7 ⟨50, .OPENING, 0, 50, none, 10⟩).position ∧
    (interpolateState 7 ⟨50, .OPENING, 0, 50, none, 10⟩).position ≤ 100 :=
  c6_interpolated_position_in_range 7 ⟨50, .OPENING, 0, 50, none, 10⟩ (by decide)
    (by norm_num) (by norm_num) (by norm_num) (by norm_num)

/-! ## C3 -/

/-- C3 counterexample: the orchestrator implements no wall-button handling at
all.  The configuration registers only actuator device ids
(`_id_to_safe`); a wall button transmits from its own radio address, which is
not in that map, so `_handle_enocean_status` drops the event.  Concretely: a
pressed rocker telegram with rocker code 2 (data byte `0x40`, status `0x30`)
from button address `AA:BB:CC:DD` decodes to an UP press, yet feeding it to
the orchestrator with a registered shutter at rest (actuator `05:12:34:56`)
returns every component unchanged — the stopped shutter does NOT start
moving, contradicting the claim. -/
theorem c3_button_press_counterexample :
    handle_rps_status "AA:BB:CC:DD" [0xF6, 0x40] 0x30 =
      some { sender_id := "AA:BB:CC:DD", direction := some .up, stopped := false } ∧
    handle_enocean_status [("05:12:34:56", "05123456")] []
      { shutters := [("05123456", { position := 0 })],
        configs := [("05123456",
          { shutter_id := "05123456", full_close_time := 20, full_open_time := 18 })] }
      0 { sender_id := "AA:BB:CC:DD", direction := some .up, stopped := false } =
      .ok ([],
        { shutters := [("05123456", { position := 0 })],
          configs := [("05123456",
            { shutter_id := "05123456", full_close_time := 20, full_open_time := 18 })] },
        []) := by
  exact ⟨rfl, rfl⟩

/-- C3 amended: every status event whose (upper-cased) sender address is not a
registered actuator id — wall buttons included, since only actuator device ids
are registered — is ignored entirely: pending commands, tracker state and
emitted effects are all unchanged, for press and release events alike. -/
theorem c3_unknown_sender_ignored (id_to_safe : List (String × String))
    (pending : List (String × PendingCommand)) (tr : PositionTracker) (now : ℚ)
    (event : StatusEvent)
    (h : lookup id_to_safe (pyUpper event.sender_id) = none) :
    handle_enocean_status id_to_safe pending tr now event = .ok (pending, tr, []) := by
  unfold handle_enocean_status
  rw [h]

/-- C3 witness: the amended theorem applied to the button press of the
counterexample. -/
theorem c3_unknown_sender_ignored_witness :
    handle_enocean_status [("05:12:34:56", "05123456")] [] ⟨[], []⟩ 0
      { sender_id := "AA:BB:CC:DD", direction := some .up, stopped := false } =
      .ok ([], ⟨[], []⟩, []) :=
  c3_unknown_sender_ignored [("05:12:34:56", "05123456")] [] ⟨[], []⟩ 0
    { sender_id := "AA:BB:CC:DD", direction := some .up, stopped := false } rfl

/-! ## C5 -/

/-- C5 counterexample: `send_command` has no lower clamp on the duration.
For direction UP and `time_sec = -1` the source computes
`time_val = min(int(-1 * 10), 3000) = -10`, and the two duration bytes
become `(-10 >> 8) & 0xFF = 0xFF` and `-10 & 0xFF = 0xF6`, which as a
big-endian 16-bit field encode 65526 — far outside `[0, 3000]`, refuting the
claim that the encoded duration is always clamped to that range. -/
theorem c5_negative_duration_counterexample :
    encodedDuration (send_command_data .up (-1) [0, 0, 0, 1]) = 65526 ∧
    ¬ encodedDuration (send_command_data .up (-1) [0, 0, 0, 1]) ≤ 3000 := by
  have h10 : ((-1 : ℚ) * 10) = ((-10 : ℤ) : ℚ) := by norm_num
  have htr : pyTrunc ((-1 : ℚ) * 10) = -10 := by
    rw [h10]
    simp only [pyTrunc, Rat.num_intCast, Rat.den_intCast]
    decide
  have hv : send_command_time_val .up (-1) = -10 := by
    show min (pyTrunc ((-1 : ℚ) * 10)) 3000 = -10
    rw [htr]
    decide
  constructor
  · simp only [encodedDuration, send_command_data, hv, byteHi, byteLo]
    decide
  · simp only [encodedDuration, send_command_data, hv, byteHi, byteLo]
    decide

/-- C5 amended: for every NONNEGATIVE drive duration the claim holds — the two
duration bytes recombine to exactly the duration quantized to tenths of a
second and clamped to `[0, 3000]`, and STOP always encodes duration 0.  (The
source has no lower clamp, so the restriction to nonnegative durations is
forced by the counterexample; every in-tree caller passes a nonnegative
duration when the configured travel times are nonnegative.) -/
theorem c5_duration_encoding_amended (direction : Direction) (t : ℚ)
    (sender : List ℤ) (ht : 0 ≤ t) :
    0 ≤ send_command_time_val direction t ∧
    send_command_time_val direction t ≤ 3000 ∧
    encodedDuration (send_command_data direction t sender) =
      send_command_time_val direction t ∧
    (direction = .stop → send_command_time_val direction t = 0) := by
  have ht0 : (0 : ℚ) ≤ (if direction = .stop then 0 else t) * 10 := by
    split <;> [norm_num; positivity]
  have hlo : 0 ≤ send_command_time_val direction t := by
    unfold send_command_time_val
    exact le_min (pyTrunc_nonneg ht0) (by norm_num)
  have hhi : send_command_time_val direction t ≤ 3000 :=
    min_le_right _ _
  refine ⟨hlo, hhi, ?_, ?_⟩
  · simp only [encodedDuration, send_command_data, List.cons_append, List.nil_append,
      List.getD_cons_succ, List.getD_cons_zero, byteHi, byteLo]
    omega
  · intro hdir
    subst hdir
    show min (pyTrunc ((0 : ℚ) * 10)) 3000 = 0
    rw [zero_mul]
    have h0 : pyTrunc 0 = 0 := by
      simp only [pyTrunc, Rat.num_ofNat, Rat.den_ofNat]
      decide
    rw [h0]
    decide

/-- C5 witness: the amended theorem applied to direction UP with duration
23 s. -/
theorem c5_duration_encoding_amended_witness :
    0 ≤ send_command_time_val .up 23 ∧
    send_command_time_val .up 23 ≤ 3000 ∧
    encodedDuration (send_command_data .up 23 [0, 0, 0, 1]) =
      send_command_time_val .up 23 ∧
    (Direction.up = .stop → send_command_time_val .up 23 = 0) :=
  c5_duration_encoding_amended .up 23 [0, 0, 0, 1] (by norm_num)

/-! ## C1 -/

/-- C1: evaluation of the code at the failing input.  A 4BS end-of-travel
telegram (`data = [0xA5, 0, 0, 0, 0x08]`) from registered actuator
`05:12:34:56` is decoded as a PLAIN stop event — `StatusEvent` carries no
`is_standard_rocker` flag at all — and `_apply_status_to_shutter` takes its
`event.stopped` branch first: it pops the pending command and calls
`tracker.stop`, so the delayed end-position notice IS treated as a live
status change.  Here the tracker held the shutter OPENING from 0 with target
50 and travel time 20 s; ten seconds in, the 4BS notice force-stops it at
position 50, clears the target, drops the pending OPEN, persists and
notifies — all state the claim says must remain unchanged. -/
theorem c1_end_position_notice_applied_as_live_stop :
    handle_4bs_status "05:12:34:56" [0xA5, 0, 0, 0, 0x08] =
      some { sender_id := "05:12:34:56", direction := none, stopped := true } ∧
    apply_status_to_shutter [("05123456", ⟨"OPEN", 0, false⟩)]
      ⟨[("05123456", ⟨0, .OPENING, 0, 0, some 50, 20⟩)],
       [("05123456", ⟨"05123456", 20, 18⟩)]⟩
      10 "05123456"
      { sender_id := "05:12:34:56", direction := none, stopped := true } =
      .ok ([],
        ⟨[("05123456", ⟨50, .STOPPED, 0, 0, none, 20⟩)],
         [("05123456", ⟨"05123456", 20, 18⟩)]⟩,
        [.saved, .notified "05123456"]) := by
  constructor
  · rfl
  · simp only [apply_status_to_shutter, PositionTracker.stop, interpolateState,
      lookup, update, removeKey]
    simp
    norm_num

/-! ## C2 -/

/-- C2: evaluation of the code at the failing input.  A pressed RPS telegram
(data byte `0x01`, status `0x30`) from registered actuator `05:12:34:56`
decodes to an UP movement confirmation, but `_apply_status_to_shutter`
immediately evaluates `event.is_standard_rocker`, an attribute `StatusEvent`
does not define, so Python raises `AttributeError` (and the lines below would
call the equally undefined `tracker.get_target`).  The pending command is
therefore never cleared and `start_moving` is never called, contrary to the
claim. -/
theorem c2_motion_confirmation_raises_attribute_error :
    handle_rps_status "05:12:34:56" [0xF6, 0x01] 0x30 =
      some { sender_id := "05:12:34:56", direction := some .up, stopped := false } ∧
    apply_status_to_shutter [("05123456", ⟨"OPEN", 0, false⟩)]
      ⟨[("05123456", ⟨0, .OPENING, 0, 0, some 50, 20⟩)],
       [("05123456", ⟨"05123456", 20, 18⟩)]⟩
      10 "05123456"
      { sender_id := "05:12:34:56", direction := some .up, stopped := false } =
      .error .attributeError :=
  ⟨rfl, rfl⟩

/-! ## C4 -/

/-- C4 counterexample: the low-nibble override is NOT restricted to registered
actuators — the decoder never consults the sender.  `AA:BB:CC:DD` is not in
the actuator registry (which holds only `05:12:34:56`), yet its pressed
telegram with data byte `0x02` (rocker code 0, low nibble `0x02`) decodes to
DOWN; the claim says a wall-button telegram with rocker code 0 must decode to
UP. -/
theorem c4_override_applied_to_button_counterexample :
    lookup [("05:12:34:56", "05123456")] (pyUpper "AA:BB:CC:DD") = none ∧
    handle_rps_status "AA:BB:CC:DD" [0xF6, 0x02] 0x30 =
      some { sender_id := "AA:BB:CC:DD", direction := some .down, stopped := false } :=
  ⟨rfl, rfl⟩

/-- C4 amended: for every pressed rocker telegram, from any sender (the
decoder is sender-independent — buttons and actuators share the decode
unconditionally), the decoded direction is `claimedRockerDirection` of the
data byte: codes 1 and 3 → DOWN, code 2 → UP, codes 4-7 → none, and code 0 →
UP except when the low nibble is `0x02`, in which case DOWN. -/
theorem c4_rps_decode_amended (sender : String) (data : List ℕ) (status : ℕ)
    (hlen : 2 ≤ data.length) (hpressed : (status >>> 4) &&& 0x01 ≠ 0) :
    handle_rps_status sender data status =
      some { sender_id := sender,
             direction := claimedRockerDirection (data.getD 1 0),
             stopped := false } := by
  simp only [handle_rps_status, claimedRockerDirection]
  rw [if_neg (Nat.not_lt.mpr hlen), if_pos hpressed]
  simp only [Option.some.injEq, StatusEvent.mk.injEq, true_and, and_true]
  split_ifs <;> first | rfl | omega

/-- C4 witness: the amended theorem applied to the pressed telegram of the
counterexample. -/
theorem c4_rps_decode_amended_witness :
    handle_rps_status "AA:BB:CC:DD" [0xF6, 0x02] 0x30 =
      some { sender_id := "AA:BB:CC:DD",
             direction := claimedRockerDirection ([0xF6, 0x02].getD 1 0),
             stopped := false } :=
  c4_rps_decode_amended "AA:BB:CC:DD" [0xF6, 0x02] 0x30 (by decide) (by decide)

/-! ## C7 -/

/-- C7 counterexample: `stop` snaps positions within 1 percentage point of a
limit to that limit.  A registered shutter at rest at position 1/2 — inside
the claimed range `[0, 100]` — after `start_moving` immediately followed by
`stop` with zero elapsed time stores position 0, not the starting position
1/2. -/
theorem c7_snap_counterexample :
    (0 : ℚ) ≤ 1/2 ∧ (1/2 : ℚ) ≤ 100 ∧
    (lookup (PositionTracker.stop
        (PositionTracker.start_moving
          ⟨[("s1", { position := 1/2 })], [("s1", ⟨"s1", 20, 18⟩)]⟩
          0 "s1" .OPENING none).1
        0 "s1").1.shutters "s1").map ShutterState.position = some 0 ∧
    (0 : ℚ) ≠ 1/2 := by
  refine ⟨by norm_num, by norm_num, ?_, by norm_num⟩
  simp only [PositionTracker.start_moving, PositionTracker.stop, interpolateState,
    lookup, update]
  norm_num

/-- C7 amended: for every registered shutter at rest at a starting position in
`[1, 99]`, `start_moving` (either direction — in fact any direction argument —
and any optional target) followed immediately by `stop` with zero elapsed
time leaves the stored position equal to the starting position.  Positions
below 1 or above 99 are excluded because `stop` snaps them to exactly 0
resp. 100 (see the counterexample); positive travel times reflect that the
source would raise `ZeroDivisionError` at zero. -/
theorem c7_start_then_stop_keeps_position (tr : PositionTracker) (now : ℚ)
    (shutter_id : String) (st : ShutterState) (cfg : ShutterTrackerConfig)
    (hst : lookup tr.shutters shutter_id = some st)
    (hcfg : lookup tr.configs shutter_id = some cfg)
    (hstopped : st.motion = .STOPPED)
    (hopen : 0 < cfg.full_open_time) (hclose : 0 < cfg.full_close_time)
    (h1 : 1 ≤ st.position) (h99 : st.position ≤ 99)
    (direction : MotionState) (target : Option ℚ) :
    (lookup (((tr.start_moving now shutter_id direction target).1.stop now
        shutter_id).1.shutters) shutter_id).map ShutterState.position =
      some st.position := by
  set st2 : ShutterState :=
    { st with motion := direction, move_start_time := now,
              move_start_position := st.position, target_position := target,
              full_travel_time := if direction = .OPENING then cfg.full_open_time
                                  else cfg.full_close_time } with hst2
  have hsm : tr.start_moving now shutter_id direction target =
      ({ tr with shutters := update tr.shutters shutter_id st2 },
       [Effect.notified shutter_id]) := by
    unfold PositionTracker.start_moving
    rw [hst, hcfg]
    simp only [hstopped, ne_eq, not_true_eq_false, if_false]
  have hlk : lookup (update tr.shutters shutter_id st2) shutter_id = some st2 :=
    lookup_update_self _ _ _ (by rw [hst]; rfl)
  have hint : (if st2.motion ≠ .STOPPED then interpolateState now st2
      else st2).position = st.position := by
    cases direction with
    | STOPPED => rw [if_neg (by simp [hst2])]
    | OPENING =>
        rw [if_pos (by simp [hst2])]
        simp only [interpolateState, hst2, sub_self, zero_div, zero_mul, add_zero]
        exact min_eq_right (by linarith)
    | CLOSING =>
        rw [if_pos (by simp [hst2])]
        simp only [interpolateState, hst2, sub_self, zero_div, zero_mul, sub_zero]
        exact max_eq_right (by linarith)
  rw [hsm]
  unfold PositionTracker.stop
  simp only [hlk]
  simp only [hint]
  rw [if_neg (not_lt.mpr h1), if_neg (not_lt.mpr h99)]
  rw [lookup_update_self _ _ _ (by rw [hlk]; rfl)]
  rfl

/-- C7 witness: the amended theorem applied to a shutter at rest at position
40 with travel times 20/18, moved OPENING with no target at time 0. -/
theorem c7_start_then_stop_keeps_position_witness :
    (lookup (((PositionTracker.start_moving
        ⟨[("s1", ⟨40, .STOPPED, 0, 0, none, 25⟩)], [("s1", ⟨"s1", 20, 18⟩)]⟩
        0 "s1" .OPENING none).1.stop 0 "s1").1.shutters) "s1").map
      ShutterState.position = some (40 : ℚ) :=
  c7_start_then_stop_keeps_position
    ⟨[("s1", ⟨40, .STOPPED, 0, 0, none, 25⟩)], [("s1", ⟨"s1", 20, 18⟩)]⟩
    0 "s1" ⟨40, .STOPPED, 0, 0, none, 25⟩ ⟨"s1", 20, 18⟩ rfl rfl rfl
    (by norm_num) (by norm_num) (by norm_num) (by norm_num) .OPENING none

/-! ## C8 -/

theorem lookup_eq_none_of_not_mem {α : Type} (l : List (String × α)) (key : String)
    (h : key ∉ l.map Prod.fst) : lookup l key = none := by
  induction l with
  | nil => rfl
  | cons hd tl ih =>
      obtain ⟨k, v⟩ := hd
      simp only [List.map_cons, List.mem_cons, not_or] at h
      simp only [lookup, if_neg (mt Eq.symm h.1)]
      exact ih h.2

theorem retryScan_keys_sublist (now : ℚ) (l : List (String × PendingCommand)) :
    ((retryScan now l).1.map Prod.fst).Sublist (l.map Prod.fst) := by
  induction l with
  | nil => simp [retryScan]
  | cons hd tl ih =>
      obtain ⟨k, p⟩ := hd
      simp only [retryScan, List.map_cons]
      split_ifs
      · simpa using ih.cons₂ k
      · exact ih.cons k
      · simpa using ih.cons₂ k

theorem retryScan_absent (now : ℚ) (l : List (String × PendingCommand)) (key : String)
    (h : key ∉ l.map Prod.fst) :
    List.filter (fun s => s.1 == key) (retryScan now l).2 = [] ∧
    lookup (retryScan now l).1 key = none := by
  induction l with
  | nil => exact ⟨rfl, rfl⟩
  | cons hd tl ih =>
      obtain ⟨k, p⟩ := hd
      simp only [List.map_cons, List.mem_cons, not_or] at h
      obtain ⟨hk, htl⟩ := h
      obtain ⟨ih1, ih2⟩ := ih htl
      simp only [retryScan]
      split_ifs
      · exact ⟨ih1, by simp only [lookup, if_neg (mt Eq.symm hk)]; exact ih2⟩
      · exact ⟨ih1, ih2⟩
      · refine ⟨?_, by simp only [lookup, if_neg (mt Eq.symm hk)]; exact ih2⟩
        have : ((k, p.command).1 == key) = false := by
          simp [beq_eq_false_iff_ne, mt Eq.symm hk]
        simp only [List.filter_cons, this]
        exact ih1

theorem retryScan_unretried (now : ℚ) (l : List (String × PendingCommand)) (key : String)
    (p : PendingCommand) (hnodup : (l.map Prod.fst).Nodup)
    (hlook : lookup l key = some p) (hp : p.retried = false)
    (ht : ¬ now - p.sent_at < COMMAND_ACK_TIMEOUT) :
    List.filter (fun s => s.1 == key) (retryScan now l).2 = [(key, p.command)] ∧
    lookup (retryScan now l).1 key =
      some { command := p.command, sent_at := now, retried := true } := by
  induction l with
  | nil => simp [lookup] at hlook
  | cons hd tl ih =>
      obtain ⟨k, q⟩ := hd
      simp only [List.map_cons, List.nodup_cons] at hnodup
      obtain ⟨hkn, hnd⟩ := hnodup
      by_cases hk : k = key
      · subst hk
        simp only [lookup, eq_self_iff_true, if_true, Option.some.injEq] at hlook
        subst hlook
        have habs := retryScan_absent now tl k hkn
        simp only [retryScan, if_neg ht, hp, Bool.false_eq_true, if_false]
        constructor
        · have : ((k, q.command).1 == k) = true := by simp
          simp only [List.filter_cons, this, if_true]
          rw [habs.1]
        · simp [lookup]
      · have hlook2 : lookup tl key = some p := by
          simpa only [lookup, if_neg hk] using hlook
        obtain ⟨ih1, ih2⟩ := ih hnd hlook2
        simp only [retryScan]
        split_ifs
        · exact ⟨ih1, by simp only [lookup, if_neg hk]; exact ih2⟩
        · exact ⟨ih1, ih2⟩
        · refine ⟨?_, by simp only [lookup, if_neg hk]; exact ih2⟩
          have : ((k, q.command).1 == key) = false := by simp [hk]
          simp only [List.filter_cons, this]
          exact ih1

theorem retryScan_retired (now : ℚ) (l : List (String × PendingCommand)) (key : String)
    (p : PendingCommand) (hnodup : (l.map Prod.fst).Nodup)
    (hlook : lookup l key = some p) (hp : p.retried = true)
    (ht : ¬ now - p.sent_at < COMMAND_ACK_TIMEOUT) :
    List.filter (fun s => s.1 == key) (retryScan now l).2 = [] ∧
    lookup (retryScan now l).1 key = none := by
  induction l with
  | nil => simp [lookup] at hlook
  | cons hd tl ih =>
      obtain ⟨k, q⟩ := hd
      simp only [List.map_cons, List.nodup_cons] at hnodup
      obtain ⟨hkn, hnd⟩ := hnodup
      by_cases hk : k = key
      · subst hk
        simp only [lookup, eq_self_iff_true, if_true, Option.some.injEq] at hlook
        subst hlook
        have habs := retryScan_absent now tl k hkn
        simp only [retryScan, if_neg ht, hp, if_true]
        exact ⟨habs.1, habs.2⟩
      · have hlook2 : lookup tl key = some p := by
          simpa only [lookup, if_neg hk] using hlook
        obtain ⟨ih1, ih2⟩ := ih hnd hlook2
        simp only [retryScan]
        split_ifs
        · exact ⟨ih1, by simp only [lookup, if_neg hk]; exact ih2⟩
        · exact ⟨ih1, ih2⟩
        · refine ⟨?_, by simp only [lookup, if_neg hk]; exact ih2⟩
          have : ((k, q.command).1 == key) = false := by simp [hk]
          simp only [List.filter_cons, this]
          exact ih1

/-- C8: a pending command that receives no acknowledgement is, at the first
scan past the 5-second acknowledgement timeout, resent exactly once (the
identical command string — `_handle_command` re-encodes it against the
unchanged shutter config) with the pending record re-armed as
`retried = true, sent_at = now`; at a second scan past a further timeout the
record is dropped with no further resend.  Filtering the scan's resend list
by the shutter key shows exactly one resend in the first scan and none in the
second, so each externally issued command causes at most one retry. -/
theorem c8_retry_exactly_once_then_drop (pend : List (String × PendingCommand))
    (key : String) (p : PendingCommand) (t1 t2 : ℚ)
    (hnodup : (pend.map Prod.fst).Nodup)
    (hlook : lookup pend key = some p) (hp : p.retried = false)
    (h1 : COMMAND_ACK_TIMEOUT ≤ t1 - p.sent_at)
    (h2 : COMMAND_ACK_TIMEOUT ≤ t2 - t1) :
    List.filter (fun s => s.1 == key) (retryScan t1 pend).2 = [(key, p.command)] ∧
    lookup (retryScan t1 pend).1 key =
      some { command := p.command, sent_at := t1, retried := true } ∧
    List.filter (fun s => s.1 == key) (retryScan t2 (retryScan t1 pend).1).2 = [] ∧
    lookup (retryScan t2 (retryScan t1 pend).1).1 key = none := by
  obtain ⟨hf1, hf2⟩ := retryScan_unretried t1 pend key p hnodup hlook hp (not_lt.mpr h1)
  have hnodup2 : ((retryScan t1 pend).1.map Prod.fst).Nodup :=
    List.Nodup.sublist (retryScan_keys_sublist t1 pend) hnodup
  obtain ⟨hg1, hg2⟩ := retryScan_retired t2 (retryScan t1 pend).1 key
    { command := p.command, sent_at := t1, retried := true } hnodup2 hf2 rfl
    (not_lt.mpr (by simpa using h2))
  exact ⟨hf1, hf2, hg1, hg2⟩

/-- C8 witness: an un-acknowledged OPEN sent at t = 0, scanned at t = 5 and
t = 10. -/
theorem c8_retry_exactly_once_then_drop_witness :
    List.filter (fun s => s.1 == "s1")
      (retryScan 5 [("s1", ⟨"OPEN", 0, false⟩)]).2 = [("s1", "OPEN")] ∧
    lookup (retryScan 5 [("s1", ⟨"OPEN", 0, false⟩)]).1 "s1" =
      some { command := "OPEN", sent_at := 5, retried := true } ∧
    List.filter (fun s => s.1 == "s1")
      (retryScan 10 (retryScan 5 [("s1", ⟨"OPEN", 0, false⟩)]).1).2 = [] ∧
    lookup (retryScan 10 (retryScan 5 [("s1", ⟨"OPEN", 0, false⟩)]).1).1 "s1" = none :=
  c8_retry_exactly_once_then_drop [("s1", ⟨"OPEN", 0, false⟩)] "s1" ⟨"OPEN", 0, false⟩
    5 10 (by simp) rfl rfl (by norm_num [COMMAND_ACK_TIMEOUT])
    (by norm_num [COMMAND_ACK_TIMEOUT])

/-! ## C9 -/

theorem checkTargetsStep_no_stop (now : ℚ) (shutter_id : String) (st : ShutterState)
    (h : (st.target_position = some 0 ∧ st.motion = .CLOSING) ∨
         (st.target_position = some 100 ∧ st.motion = .OPENING)) :
    (checkTargetsStep now shutter_id st).2.1 = false := by
  obtain ⟨pos, motion, mst, msp, tgt, ftt⟩ := st
  rcases h with ⟨htgt, hm⟩ | ⟨htgt, hm⟩ <;> simp only at htgt hm <;>
    subst htgt <;> subst hm <;>
    simp only [checkTargetsStep, interpolateState] <;>
    split_ifs <;> (try rfl) <;> (exfalso; (try simp_all); (try linarith))

theorem checkTargetsStep_forced_closing (now : ℚ) (shutter_id : String)
    (st : ShutterState) (hm : st.motion = .CLOSING)
    (hr : (interpolateState now st).position ≤ 0) :
    (checkTargetsStep now shutter_id st).1.motion = .STOPPED ∧
    (checkTargetsStep now shutter_id st).1.position = 0 ∧
    (checkTargetsStep now shutter_id st).1.target_position = none ∧
    (checkTargetsStep now shutter_id st).2.2 =
      [Effect.saved, Effect.notified shutter_id] := by
  obtain ⟨pos, motion, mst, msp, tgt, ftt⟩ := st
  simp only at hm
  subst hm
  simp only [interpolateState] at hr
  simp only [checkTargetsStep, interpolateState]
  rw [if_neg (by simp), if_pos ⟨hr, trivial⟩]
  exact ⟨rfl, rfl, rfl, rfl⟩

theorem checkTargetsStep_forced_opening (now : ℚ) (shutter_id : String)
    (st : ShutterState) (hm : st.motion = .OPENING)
    (hr : 100 ≤ (interpolateState now st).position) :
    (checkTargetsStep now shutter_id st).1.motion = .STOPPED ∧
    (checkTargetsStep now shutter_id st).1.position = 100 ∧
    (checkTargetsStep now shutter_id st).1.target_position = none ∧
    (checkTargetsStep now shutter_id st).2.2 =
      [Effect.saved, Effect.notified shutter_id] := by
  obtain ⟨pos, motion, mst, msp, tgt, ftt⟩ := st
  simp only at hm
  subst hm
  simp only [interpolateState] at hr
  simp only [checkTargetsStep, interpolateState]
  rw [if_neg (by simp), if_neg (by simp), if_pos ⟨hr, trivial⟩]
  exact ⟨rfl, rfl, rfl, rfl⟩

theorem checkTargetsList_not_mem (now : ℚ) (l : List (String × ShutterState))
    (key : String)
    (h : ∀ st, (key, st) ∈ l → (checkTargetsStep now key st).2.1 = false) :
    key ∉ (checkTargetsList now l).2.1 := by
  induction l with
  | nil => simp [checkTargetsList]
  | cons hd tl ih =>
      obtain ⟨k, st⟩ := hd
      simp only [checkTargetsList, List.mem_append]
      rintro (h1 | h2)
      · by_cases hk : k = key
        · subst hk
          rw [h st (List.mem_cons_self _ _)] at h1
          simp at h1
        · rcases (by split at h1 <;> simp_all : key = k) with rfl
          exact hk rfl
      · exact ih (fun st2 hst2 => h st2 (List.mem_cons_of_mem _ hst2)) h2

/-- C9: a shutter whose numeric target is a physical limit (target 0 while
CLOSING, or target 100 while OPENING) is never reported by `check_targets` in
the returned stop-command list: the physical-limit branch fires first, and
when the interpolated position reaches the limit it force-stops the shutter —
motion STOPPED, position exactly at the limit, target cleared, with
`save_positions` and the update notification emitted — without asking the
caller to issue a stop command.  (Positive travel time reflects the source
raising `ZeroDivisionError` otherwise.) -/
theorem c9_limit_target_not_reported (tr : PositionTracker) (now : ℚ) (key : String)
    (h : ∀ st, (key, st) ∈ tr.shutters →
        0 < st.full_travel_time ∧
        ((st.target_position = some 0 ∧ st.motion = .CLOSING) ∨
         (st.target_position = some 100 ∧ st.motion = .OPENING))) :
    key ∉ (tr.check_targets now).2.1 ∧
    ∀ st, (key, st) ∈ tr.shutters →
      (st.motion = .CLOSING → (interpolateState now st).position ≤ 0 →
        (checkTargetsStep now key st).1.motion = .STOPPED ∧
        (checkTargetsStep now key st).1.position = 0 ∧
        (checkTargetsStep now key st).1.target_position = none ∧
        (checkTargetsStep now key st).2.2 =
          [Effect.saved, Effect.notified key]) ∧
      (st.motion = .OPENING → 100 ≤ (interpolateState now st).position →
        (checkTargetsStep now key st).1.motion = .STOPPED ∧
        (checkTargetsStep now key st).1.position = 100 ∧
        (checkTargetsStep now key st).1.target_position = none ∧
        (checkTargetsStep now key st).2.2 =
          [Effect.saved, Effect.notified key]) := by
  refine ⟨?_, ?_⟩
  · exact checkTargetsList_not_mem now tr.shutters key
      (fun st hst => checkTargetsStep_no_stop now key st (h st hst).2)
  · intro st _
    exact ⟨fun hm hr => checkTargetsStep_forced_closing now key st hm hr,
           fun hm hr => checkTargetsStep_forced_opening now key st hm hr⟩

/-- C9 witness: a shutter CLOSING from 5% with target 0 and travel time 20 s,
checked 1 s in (interpolated position exactly 0). -/
theorem c9_limit_target_not_reported_witness :
    "s1" ∉ (PositionTracker.check_targets
        ⟨[("s1", ⟨5, .CLOSING, 0, 5, some 0, 20⟩)], []⟩ 1).2.1 ∧
    ∀ st, ("s1", st) ∈ [("s1", (⟨5, .CLOSING, 0, 5, some 0, 20⟩ : ShutterState))] →
      (st.motion = .CLOSING → (interpolateState 1 st).position ≤ 0 →
        (checkTargetsStep 1 "s1" st).1.motion = .STOPPED ∧
        (checkTargetsStep 1 "s1" st).1.position = 0 ∧
        (checkTargetsStep 1 "s1" st).1.target_position = none ∧
        (checkTargetsStep 1 "s1" st).2.2 =
          [Effect.saved, Effect.notified "s1"]) ∧
      (st.motion = .OPENING → 100 ≤ (interpolateState 1 st).position →
        (checkTargetsStep 1 "s1" st).1.motion = .STOPPED ∧
        (checkTargetsStep 1 "s1" st).1.position = 100 ∧
        (checkTargetsStep 1 "s1" st).1.target_position = none ∧
        (checkTargetsStep 1 "s1" st).2.2 =
          [Effect.saved, Effect.notified "s1"]) :=
  c9_limit_target_not_reported ⟨[("s1", ⟨5, .CLOSING, 0, 5, some 0, 20⟩)], []⟩ 1 "s1"
    (by
      intro st hst
      simp only [List.mem_singleton, Prod.mk.injEq] at hst
      rw [hst.2]
      exact ⟨by norm_num, Or.inl ⟨rfl, rfl⟩⟩)

end ShutterControl
